import Mathlib

/-!
Shallow embedding of the WebSocket chat relay of the GrantManager backend
(`registerRoutes` in the routes module: the `wss.on('connection')` handler).

Modelling conventions:
* A connection handle (`ws: WebSocket`) is a `Nat`.
* The JS `Map` `clients` is an insertion-ordered association list
  (JS `Map.set` replaces in place on an existing key and appends otherwise;
  iteration is in insertion order).
* `Date.now()` and `new Date().toISOString()` are a single `Nat` tick supplied
  to each frame handler; `Date.now().toString()` is an injective decimal
  rendering of the tick, so the message `id` is modelled as the tick itself.
* `jwt.verify` is an external collaborator, passed in as a function
  `String → Option Decoded`; the handler only reads `decoded.role`.
* A JS field that is checked for truthiness before use (`data.userId` in the
  `send` guard, `data.targetUserId`) is an `Option String`; `none` stands for
  absent/falsy.
* Each inbound frame produces the next server state, the ordered list of
  `ws.send` calls as (connection handle, frame) pairs, and the list of
  `ws.close()` calls.
-/

namespace GrantManager

/-- Entry of the `clients` map: `{ ws, userId, role }`. -/
structure Client where
  ws : Nat
  userId : String
  role : String
  deriving DecidableEq

/-- One element of the in-memory `messages` array:
`{ id, userId, senderRole, message, createdAt, targetUserId? }`. -/
structure ChatMessage where
  id : Nat
  userId : String
  senderRole : String
  message : String
  createdAt : Nat
  targetUserId : Option String
  deriving DecidableEq

/-- The `clients` JS `Map`, as an insertion-ordered association list. -/
abbrev Directory := List (String × Client)

/-- JS `Map.get`. -/
def mapGet : Directory → String → Option Client
  | [], _ => none
  | (k, v) :: rest, key => if k = key then some v else mapGet rest key

/-- JS `Map.set`: replaces in place on an existing key, appends otherwise. -/
def mapSet : Directory → String → Client → Directory
  | [], key, v => [(key, v)]
  | (k, w) :: rest, key, v =>
    if k = key then (k, v) :: rest else (k, w) :: mapSet rest key v

/-- The mutable state of the relay: the `clients` map and the `messages` log. -/
structure ServerState where
  clients : Directory
  messages : List ChatMessage
  deriving DecidableEq

/-- Payload of a verified token; the handler only reads `decoded.role`
(`decoded.id` and `decoded.email` are never used by the relay). -/
structure Decoded where
  role : String
  deriving DecidableEq

/-- Inbound frames (§6 wire protocol): `auth`, `send`, `getHistory`. -/
inductive InFrame where
  | auth (token : String) (userId : String)
  | send (userId : Option String) (senderRole : String) (body : String)
      (targetUserId : Option String)
  | getHistory (userId : Option String) (targetUserId : Option String)
  deriving DecidableEq

/-- Outbound frames: `auth-error`, `history`, `message`, `error`. -/
inductive OutFrame where
  | authError (text : String)
  | history (messages : List ChatMessage)
  | message (m : ChatMessage)
  | error (text : String)
  deriving DecidableEq

/-- Result of handling one inbound frame: next state, the `ws.send` calls in
emission order (keyed by connection handle), and the `ws.close` calls. -/
structure StepResult where
  state : ServerState
  sends : List (Nat × OutFrame)
  closes : List Nat
  deriving DecidableEq

/-- History replay on successful auth: `messages.filter(msg =>
decoded.role === 'admin' || msg.userId === data.userId ||
msg.targetUserId === data.userId)`. -/
def historyReplay (role userId : String) (msgs : List ChatMessage) :
    List ChatMessage :=
  msgs.filter fun msg =>
    role == "admin" || msg.userId == userId || msg.targetUserId == some userId

/-- `getHistory` filter: `(msg.userId === data.userId && msg.targetUserId ===
data.targetUserId) || (msg.userId === data.targetUserId && msg.targetUserId ===
data.userId)`. -/
def conversationHistory (userId targetUserId : String)
    (msgs : List ChatMessage) : List ChatMessage :=
  msgs.filter fun msg =>
    (msg.userId == userId && msg.targetUserId == some targetUserId) ||
    (msg.userId == targetUserId && msg.targetUserId == some userId)

/-- The `user` branch fan-out: one `message` frame to every client with role
`admin`, in map order, then one to the sender's own registered connection. -/
def userFanout (clients : Directory) (sender : Client)
    (messageObj : ChatMessage) : List (Nat × OutFrame) :=
  (clients.filter fun e => e.snd.role == "admin").map
      (fun e => (e.snd.ws, OutFrame.message messageObj)) ++
    [(sender.ws, OutFrame.message messageObj)]

/-- Delivery decision of the `send` handler after the push: the
`sender.role === 'admin' && data.targetUserId` branch, then the
`sender.role === 'user'` branch, else nothing is delivered. -/
def routeSend (clients : Directory) (sender : Client)
    (messageObj : ChatMessage) : Option String → List (Nat × OutFrame)
  | some targetUserId =>
    if sender.role = "admin" then
      match mapGet clients targetUserId with
      | some targetClient =>
        [(targetClient.ws, OutFrame.message messageObj),
         (sender.ws, OutFrame.message messageObj)]
      | none => [(sender.ws, OutFrame.message messageObj)]
    else if sender.role = "user" then userFanout clients sender messageObj
    else []
  | none =>
    if sender.role = "user" then userFanout clients sender messageObj
    else []

/-- The `messageObj` built by the `send` handler: id and createdAt both come
from the tick (`Date.now().toString()` / `new Date().toISOString()`). -/
def sentMessage (now : Nat) (userId senderRole body : String)
    (targetUserId : Option String) : ChatMessage :=
  { id := now, userId := userId, senderRole := senderRole, message := body
    createdAt := now, targetUserId := targetUserId }

/-- The `ws.on('message')` handler, one inbound frame on connection `ws` at
tick `now`, with token verifier `verify`. -/
def handleFrame (verify : String → Option Decoded) (now : Nat)
    (st : ServerState) (ws : Nat) : InFrame → StepResult
  | InFrame.auth token userId =>
    match verify token with
    | none =>
      { state := st
        sends := [(ws, OutFrame.authError "Invalid token")]
        closes := [ws] }
    | some decoded =>
      { state :=
          { st with
            clients := mapSet st.clients userId ⟨ws, userId, decoded.role⟩ }
        sends :=
          [(ws, OutFrame.history (historyReplay decoded.role userId
            st.messages))]
        closes := [] }
  | InFrame.send userId? senderRole body targetUserId =>
    match userId? with
    | none => { state := st, sends := [], closes := [] }
    | some userId =>
      match mapGet st.clients userId with
      | none =>
        { state := st
          sends := [(ws, OutFrame.error "User not authenticated")]
          closes := [] }
      | some sender =>
        let messageObj : ChatMessage :=
          sentMessage now userId senderRole body targetUserId
        { state := { st with messages := st.messages ++ [messageObj] }
          sends := routeSend st.clients sender messageObj targetUserId
          closes := [] }
  | InFrame.getHistory userId? targetUserId? =>
    match userId? with
    | none => { state := st, sends := [], closes := [] }
    | some userId =>
      match targetUserId? with
      | none => { state := st, sends := [], closes := [] }
      | some targetUserId =>
        { state := st
          sends :=
            [(ws, OutFrame.history (conversationHistory userId targetUserId
              st.messages))]
          closes := [] }

/-- Body of the `ws.on('close')` handler: iterate the map in insertion order,
delete the first entry whose `client.ws === ws`, then `break`. -/
def removeFirstMatching (ws : Nat) : Directory → Directory
  | [] => []
  | (id, client) :: rest =>
    if client.ws = ws then rest else (id, client) :: removeFirstMatching ws rest

/-- The `ws.on('close')` handler. -/
def handleClose (st : ServerState) (ws : Nat) : ServerState :=
  { st with clients := removeFirstMatching ws st.clients }

/-- One event on the server: an inbound frame on a connection at a tick, or a
transport close. -/
inductive Event where
  | frame (ws : Nat) (now : Nat) (f : InFrame)
  | close (ws : Nat)
  deriving DecidableEq

/-- The `Date.now()` tick of an event, when it is a frame. -/
def eventTick : Event → Option Nat
  | Event.frame _ now _ => some now
  | Event.close _ => none

/-- Run a sequence of events from a state, discarding outputs. -/
def run (verify : String → Option Decoded) :
    ServerState → List Event → ServerState
  | st, [] => st
  | st, Event.frame ws now f :: rest =>
    run verify (handleFrame verify now st ws f).state rest
  | st, Event.close ws :: rest => run verify (handleClose st ws) rest

/-! Concrete fixtures used by witness and counterexample theorems. -/

/-- A verifier that rejects every token. -/
def noVerify : String → Option Decoded := fun _ => none

/-- A verifier that accepts every token with the given role. -/
def okVerify (role : String) : String → Option Decoded :=
  fun _ => some ⟨role⟩

/-- Sample user client on connection 1. -/
def u1 : Client := ⟨1, "u1", "user"⟩

/-- Sample admin client on connection 2. -/
def a1 : Client := ⟨2, "a1", "admin"⟩

/-- Sample state: one registered user and one registered admin, empty log. -/
def sampleState : ServerState := ⟨[("u1", u1), ("a1", a1)], []⟩

/-- Sample logged message: from `u1`, no target. -/
def msgA : ChatMessage := ⟨1, "u1", "user", "hello", 1, none⟩

/-- Sample logged message: from `a1` to `u1`. -/
def msgB : ChatMessage := ⟨2, "a1", "admin", "hi", 2, some "u1"⟩

/-- Sample logged message: from `u2`, no target. -/
def msgC : ChatMessage := ⟨3, "u2", "user", "yo", 3, none⟩

/-- Sample state with three logged messages. -/
def loggedState : ServerState := ⟨[("u1", u1), ("a1", a1)], [msgA, msgB, msgC]⟩

/-- Script: one connection authenticates and sends twice, at distinct ticks. -/
def chatScript : List Event :=
  [Event.frame 1 10 (InFrame.auth "t" "u1"),
   Event.frame 1 11 (InFrame.send (some "u1") "user" "one" none),
   Event.frame 1 12 (InFrame.send (some "u1") "user" "two" none)]

/-- Script: one connection authenticates and sends twice in the same
millisecond (tick 11 twice). -/
def collideScript : List Event :=
  [Event.frame 1 10 (InFrame.auth "t" "u1"),
   Event.frame 1 11 (InFrame.send (some "u1") "user" "one" none),
   Event.frame 1 11 (InFrame.send (some "u1") "user" "two" none)]

/-- Script: connection 5 authenticates as `a`, then again as `b`, then the
transport closes. -/
def doubleAuth : List Event :=
  [Event.frame 5 1 (InFrame.auth "t" "a"),
   Event.frame 5 2 (InFrame.auth "t" "b"),
   Event.close 5]

/-- C3: a `send` frame naming a `userId` with no live Session Directory entry
is a no-op with an error notification: the originating connection receives an
`error` frame ("User not authenticated"), the state (message log and session
directory) is unchanged, and no other delivery and no close occurs. -/
theorem send_unknown_sender (verify : String → Option Decoded) (now : Nat)
    (st : ServerState) (ws : Nat) (u senderRole body : String)
    (targetUserId : Option String) (hu : mapGet st.clients u = none) :
    handleFrame verify now st ws
        (InFrame.send (some u) senderRole body targetUserId) =
      { state := st
        sends := [(ws, OutFrame.error "User not authenticated")]
        closes := [] } := by
  simp [handleFrame, hu]

/-- Witness for C3 at a concrete state: `ghost` is not registered. -/
theorem send_unknown_sender_witness :
    mapGet sampleState.clients "ghost" = none ∧
    handleFrame noVerify 0 sampleState 4
        (InFrame.send (some "ghost") "user" "hi" none) =
      { state := sampleState
        sends := [(4, OutFrame.error "User not authenticated")]
        closes := [] } :=
  ⟨by decide,
   send_unknown_sender noVerify 0 sampleState 4 "ghost" "user" "hi" none
     (by decide)⟩

/-- C5: an `auth` frame whose token fails verification produces an
`auth-error` frame to the connection followed by a close of that connection,
and the state — in particular the session directory — is unchanged. -/
theorem auth_invalid_token (verify : String → Option Decoded) (now : Nat)
    (st : ServerState) (ws : Nat) (token userId : String)
    (hv : verify token = none) :
    handleFrame verify now st ws (InFrame.auth token userId) =
      { state := st
        sends := [(ws, OutFrame.authError "Invalid token")]
        closes := [ws] } := by
  simp [handleFrame, hv]

/-- Witness for C5 with the always-rejecting verifier. -/
theorem auth_invalid_token_witness :
    noVerify "tok" = none ∧
    handleFrame noVerify 0 sampleState 3 (InFrame.auth "tok" "u9") =
      { state := sampleState
        sends := [(3, OutFrame.authError "Invalid token")]
        closes := [3] } :=
  ⟨rfl, auth_invalid_token noVerify 0 sampleState 3 "tok" "u9" rfl⟩

/-- C7: a `getHistory` frame with requester `u` and target `t` answers with a
`history` frame holding exactly the messages whose (sender, target) pair is
(u, t) or (t, u), in log (ascending creation) order, leaves the state
unchanged, and when nothing matches the result is the empty list, not an
error. -/
theorem getHistory_conversation (verify : String → Option Decoded) (now : Nat)
    (st : ServerState) (ws : Nat) (u t : String) :
    (handleFrame verify now st ws (InFrame.getHistory (some u) (some t)) =
      { state := st
        sends := [(ws, OutFrame.history (conversationHistory u t st.messages))]
        closes := [] }) ∧
    (conversationHistory u t st.messages).Sublist st.messages ∧
    (∀ msg : ChatMessage, msg ∈ conversationHistory u t st.messages ↔
      (msg ∈ st.messages ∧
        ((msg.userId = u ∧ msg.targetUserId = some t) ∨
         (msg.userId = t ∧ msg.targetUserId = some u)))) ∧
    ((∀ msg ∈ st.messages,
        ¬ ((msg.userId = u ∧ msg.targetUserId = some t) ∨
           (msg.userId = t ∧ msg.targetUserId = some u))) →
      conversationHistory u t st.messages = []) := by
  refine ⟨rfl, List.filter_sublist _, ?_, ?_⟩
  · intro msg
    simp [conversationHistory, List.mem_filter]
  · intro hnone
    rw [conversationHistory, List.filter_eq_nil_iff]
    intro msg hmsg
    have := hnone msg hmsg
    simpa using this

/-- Witness for C7 on a log where `(u2, a9)` has no conversation. -/
theorem getHistory_conversation_witness :
    (∀ msg ∈ loggedState.messages,
      ¬ ((msg.userId = "u2" ∧ msg.targetUserId = some "a9") ∨
         (msg.userId = "a9" ∧ msg.targetUserId = some "u2"))) ∧
    conversationHistory "u2" "a9" loggedState.messages = [] :=
  ⟨by decide,
   (getHistory_conversation noVerify 0 loggedState 1 "u2" "a9").2.2.2
     (by decide)⟩

/-- C10: a `send` frame with `userId` absent, a `getHistory` frame with
`userId` absent, and a `getHistory` frame with `targetUserId` absent are all
silently ignored: no frame is sent back, nothing is appended to the log, and
the session directory is unchanged. -/
theorem missing_fields_ignored (verify : String → Option Decoded) (now : Nat)
    (st : ServerState) (ws : Nat) (senderRole body : String)
    (targetUserId : Option String) (userId : String) :
    handleFrame verify now st ws
        (InFrame.send none senderRole body targetUserId) =
      { state := st, sends := [], closes := [] } ∧
    handleFrame verify now st ws (InFrame.getHistory none targetUserId) =
      { state := st, sends := [], closes := [] } ∧
    handleFrame verify now st ws (InFrame.getHistory (some userId) none) =
      { state := st, sends := [], closes := [] } :=
  ⟨rfl, rfl, rfl⟩

/-- C1: a `send` from a registered sender with role `user` and no target
appends exactly one ChatMessage to the log (regardless of the number of
registered admins), delivers a `message` frame to every directory entry with
role `admin` (in map order) and then to the sender's own connection, leaves
the directory unchanged, closes nothing, and emits only `message` frames — in
particular no error frame when no admin is registered. -/
theorem user_send_broadcast (verify : String → Option Decoded) (now : Nat)
    (st : ServerState) (ws : Nat) (u senderRole body : String)
    (sender : Client) (hu : mapGet st.clients u = some sender)
    (hrole : sender.role = "user") :
    (handleFrame verify now st ws (InFrame.send (some u) senderRole body none) =
      { state :=
          { clients := st.clients
            messages := st.messages ++ [sentMessage now u senderRole body none] }
        sends :=
          (st.clients.filter fun e => e.snd.role == "admin").map
              (fun e =>
                (e.snd.ws,
                 OutFrame.message (sentMessage now u senderRole body none))) ++
            [(sender.ws,
              OutFrame.message (sentMessage now u senderRole body none))]
        closes := [] }) ∧
    ∀ p ∈ (handleFrame verify now st ws
        (InFrame.send (some u) senderRole body none)).sends,
      p.snd = OutFrame.message (sentMessage now u senderRole body none) := by
  have hsends :
      handleFrame verify now st ws
          (InFrame.send (some u) senderRole body none) =
        { state :=
            { clients := st.clients
              messages :=
                st.messages ++ [sentMessage now u senderRole body none] }
          sends :=
            (st.clients.filter fun e => e.snd.role == "admin").map
                (fun e =>
                  (e.snd.ws,
                   OutFrame.message (sentMessage now u senderRole body none))) ++
              [(sender.ws,
                OutFrame.message (sentMessage now u senderRole body none))]
          closes := [] } := by
    simp [handleFrame, hu, routeSend, hrole, userFanout]
  refine ⟨hsends, ?_⟩
  rw [hsends]
  intro p hp
  simp only [List.mem_append, List.mem_map, List.mem_singleton] at hp
  rcases hp with ⟨e, _, rfl⟩ | rfl <;> rfl

/-- Witness for C1: `u1` broadcasts; the one admin `a1` (connection 2) and
then `u1` itself (connection 1) receive the frame, one message is appended. -/
theorem user_send_broadcast_witness :
    (mapGet sampleState.clients "u1" = some u1 ∧ u1.role = "user") ∧
    handleFrame noVerify 5 sampleState 0
        (InFrame.send (some "u1") "user" "hello" none) =
      { state :=
          { clients := sampleState.clients
            messages := [sentMessage 5 "u1" "user" "hello" none] }
        sends :=
          [(2, OutFrame.message (sentMessage 5 "u1" "user" "hello" none)),
           (1, OutFrame.message (sentMessage 5 "u1" "user" "hello" none))]
        closes := [] } := by
  refine ⟨⟨by decide, by decide⟩, ?_⟩
  have h := (user_send_broadcast noVerify 5 sampleState 0 "u1" "user" "hello"
    u1 (by decide) (by decide)).1
  exact h.trans (by decide)

/-- C2: a `send` from a registered sender with role `admin` and a present
target appends exactly one ChatMessage, delivers the `message` frame to the
connection registered for the target (if any) and to the sender's own
connection, and only the target (when registered) and and the sender ever
receive anything. -/
theorem admin_targeted_send (verify : String → Option Decoded) (now : Nat)
    (st : ServerState) (ws : Nat) (u senderRole body tgt : String)
    (sender : Client) (hu : mapGet st.clients u = some sender)
    (hrole : sender.role = "admin") :
    (handleFrame verify now st ws
        (InFrame.send (some u) senderRole body (some tgt)) =
      { state :=
          { clients := st.clients
            messages :=
              st.messages ++ [sentMessage now u senderRole body (some tgt)] }
        sends :=
          match mapGet st.clients tgt with
          | some targetClient =>
            [(targetClient.ws,
              OutFrame.message (sentMessage now u senderRole body (some tgt))),
             (sender.ws,
              OutFrame.message (sentMessage now u senderRole body (some tgt)))]
          | none =>
            [(sender.ws,
              OutFrame.message (sentMessage now u senderRole body (some tgt)))]
        closes := [] }) ∧
    ∀ p ∈ (handleFrame verify now st ws
        (InFrame.send (some u) senderRole body (some tgt))).sends,
      p.snd = OutFrame.message (sentMessage now u senderRole body (some tgt)) ∧
      (p.fst = sender.ws ∨
        ∃ tc, mapGet st.clients tgt = some tc ∧ p.fst = tc.ws) := by
  cases htgt : mapGet st.clients tgt with
  | some targetClient =>
    have hsends :
        handleFrame verify now st ws
            (InFrame.send (some u) senderRole body (some tgt)) =
          { state :=
              { clients := st.clients
                messages :=
                  st.messages ++
                    [sentMessage now u senderRole body (some tgt)] }
            sends :=
              [(targetClient.ws,
                OutFrame.message (sentMessage now u senderRole body (some tgt))),
               (sender.ws,
                OutFrame.message (sentMessage now u senderRole body (some tgt)))]
            closes := [] } := by
      simp [handleFrame, hu, routeSend, hrole, htgt]
    refine ⟨by rw [hsends], ?_⟩
    rw [hsends]
    intro p hp
    simp only [List.mem_cons, List.mem_singleton, List.not_mem_nil,
      or_false] at hp
    rcases hp with rfl | rfl
    · exact ⟨rfl, Or.inr ⟨targetClient, rfl, rfl⟩⟩
    · exact ⟨rfl, Or.inl rfl⟩
  | none =>
    have hsends :
        handleFrame verify now st ws
            (InFrame.send (some u) senderRole body (some tgt)) =
          { state :=
              { clients := st.clients
                messages :=
                  st.messages ++
                    [sentMessage now u senderRole body (some tgt)] }
            sends :=
              [(sender.ws,
                OutFrame.message (sentMessage now u senderRole body (some tgt)))]
            closes := [] } := by
      simp [handleFrame, hu, routeSend, hrole, htgt]
    refine ⟨by rw [hsends], ?_⟩
    rw [hsends]
    intro p hp
    simp only [List.mem_singleton] at hp
    subst hp
    exact ⟨rfl, Or.inl rfl⟩

/-- Witness for C2: `a1` (connection 2) sends to registered `u1`
(connection 1); target then sender receive, one message appended. -/
theorem admin_targeted_send_witness :
    (mapGet sampleState.clients "a1" = some a1 ∧ a1.role = "admin") ∧
    handleFrame noVerify 6 sampleState 0
        (InFrame.send (some "a1") "admin" "hi" (some "u1")) =
      { state :=
          { clients := sampleState.clients
            messages := [sentMessage 6 "a1" "admin" "hi" (some "u1")] }
        sends :=
          [(1, OutFrame.message (sentMessage 6 "a1" "admin" "hi" (some "u1"))),
           (2, OutFrame.message (sentMessage 6 "a1" "admin" "hi" (some "u1")))]
        closes := [] } := by
  refine ⟨⟨by decide, by decide⟩, ?_⟩
  have h := (admin_targeted_send noVerify 6 sampleState 0 "a1" "admin" "hi"
    "u1" a1 (by decide) (by decide)).1
  exact h.trans (by decide)

/-- C6: successful authentication registers the connection and replays
history in log (ascending creation) order: all messages when the decoded role
is `admin`, and exactly those with `userId` or `targetUserId` equal to the
authenticated identifier otherwise; the replayed list is a sublist of the log
(so it preserves log order). -/
theorem auth_history_replay (verify : String → Option Decoded) (now : Nat)
    (st : ServerState) (ws : Nat) (token userId : String) (decoded : Decoded)
    (hv : verify token = some decoded) :
    (handleFrame verify now st ws (InFrame.auth token userId) =
      { state :=
          { st with
            clients := mapSet st.clients userId ⟨ws, userId, decoded.role⟩ }
        sends :=
          [(ws,
            OutFrame.history (historyReplay decoded.role userId st.messages))]
        closes := [] }) ∧
    (decoded.role = "admin" →
      historyReplay decoded.role userId st.messages = st.messages) ∧
    (decoded.role ≠ "admin" →
      historyReplay decoded.role userId st.messages =
        st.messages.filter fun msg =>
          msg.userId == userId || msg.targetUserId == some userId) ∧
    (historyReplay decoded.role userId st.messages).Sublist st.messages := by
  refine ⟨by simp [handleFrame, hv], ?_, ?_, List.filter_sublist _⟩
  · intro hadmin
    simp [historyReplay, hadmin]
  · intro hother
    have hfalse : (decoded.role == "admin") = false := by
      simpa using hother
    simp [historyReplay, hfalse]

/-- Witness for C6: `u1` authenticates with role `user` over a three-message
log and receives exactly its own conversation, in log order. -/
theorem auth_history_replay_witness :
    okVerify "user" "tok" = some ⟨"user"⟩ ∧
    historyReplay "user" "u1" loggedState.messages = [msgA, msgB] := by
  refine ⟨rfl, ?_⟩
  have h := (auth_history_replay (okVerify "user") 9 loggedState 7 "tok" "u1"
    ⟨"user"⟩ rfl).2.2.1 (by decide)
  exact h.trans (by decide)

/-- C4 (amended): the relay keeps no per-connection authentication state, so
frames from a connection that never authenticated are not rejected as such.
A `getHistory` frame with both ids present is always answered with a
`history` frame; a `send` frame is gated only by a directory lookup of the
`userId` it names: when that identifier has no live entry the connection gets
an `error` frame ("User not authenticated") and nothing else happens, and
when it is registered the send is processed (one message appended) no matter
which connection the frame arrived on; no frame closes the connection. -/
theorem no_preauth_gate (verify : String → Option Decoded) (now : Nat)
    (st : ServerState) (ws : Nat) (u t senderRole body : String) :
    (handleFrame verify now st ws (InFrame.getHistory (some u) (some t)) =
      { state := st
        sends := [(ws, OutFrame.history (conversationHistory u t st.messages))]
        closes := [] }) ∧
    (mapGet st.clients u = none →
      handleFrame verify now st ws
          (InFrame.send (some u) senderRole body none) =
        { state := st
          sends := [(ws, OutFrame.error "User not authenticated")]
          closes := [] }) ∧
    (∀ sender, mapGet st.clients u = some sender →
      (handleFrame verify now st ws
          (InFrame.send (some u) senderRole body none)).state.messages =
        st.messages ++ [sentMessage now u senderRole body none]) := by
  refine ⟨rfl, ?_, ?_⟩
  · intro hu
    simp [handleFrame, hu]
  · intro sender hu
    simp [handleFrame, hu]

/-- Counterexample to C4 as stated: connection 0 has never authenticated
(`sampleState` registers only connections 1 and 2), yet its `getHistory`
frame is answered with a `history` frame — not rejected with an
"unauthenticated" notification — and its `send` frame naming the registered
identifier `u1` is fully processed: one message is appended and delivered to
the admin (connection 2) and to `u1` (connection 1). -/
theorem preauth_frames_processed :
    (∀ e ∈ sampleState.clients, e.snd.ws ≠ 0) ∧
    handleFrame noVerify 0 sampleState 0
        (InFrame.getHistory (some "x") (some "y")) =
      { state := sampleState
        sends := [(0, OutFrame.history [])]
        closes := [] } ∧
    handleFrame noVerify 1 sampleState 0
        (InFrame.send (some "u1") "user" "hi" none) =
      { state :=
          { clients := sampleState.clients
            messages := [sentMessage 1 "u1" "user" "hi" none] }
        sends :=
          [(2, OutFrame.message (sentMessage 1 "u1" "user" "hi" none)),
           (1, OutFrame.message (sentMessage 1 "u1" "user" "hi" none))]
        closes := [] } := by
  decide

/-- Witness for C4 (amended): the unknown-sender arm at a concrete state. -/
theorem no_preauth_gate_witness :
    mapGet sampleState.clients "nobody" = none ∧
    handleFrame noVerify 0 sampleState 0
        (InFrame.send (some "nobody") "user" "hi" none) =
      { state := sampleState
        sends := [(0, OutFrame.error "User not authenticated")]
        closes := [] } :=
  ⟨by decide,
   (no_preauth_gate noVerify 0 sampleState 0 "nobody" "t" "user" "hi").2.1
     (by decide)⟩

/-- Registering an identifier makes it the one looked up afterwards. -/
theorem mapGet_mapSet_self (d : Directory) (k : String) (v : Client) :
    mapGet (mapSet d k v) k = some v := by
  induction d with
  | nil => simp [mapSet, mapGet]
  | cons e rest ih =>
    obtain ⟨k0, v0⟩ := e
    by_cases h : k0 = k
    · subst h
      simp [mapSet, mapGet]
    · simp [mapSet, mapGet, h, ih]

/-- Registering an identifier leaves every other lookup unchanged. -/
theorem mapGet_mapSet_other (d : Directory) (k k' : String) (v : Client)
    (hne : k' ≠ k) : mapGet (mapSet d k v) k' = mapGet d k' := by
  induction d with
  | nil =>
    simp only [mapSet, mapGet]
    rw [if_neg fun h : k = k' => hne h.symm]
  | cons e rest ih =>
    obtain ⟨k0, v0⟩ := e
    by_cases h : k0 = k
    · subst h
      simp [mapSet, mapGet, hne.symm]
    · by_cases h2 : k0 = k'
      · subst h2
        simp [mapSet, mapGet, h]
      · simp [mapSet, mapGet, h, h2, ih]

/-- When the closed handle occupies at most one directory entry, the close
handler leaves no entry with that handle. -/
theorem removeFirstMatching_clears (w : Nat) :
    ∀ d : Directory, (d.filter fun e => e.snd.ws == w).length ≤ 1 →
      ∀ e ∈ removeFirstMatching w d, e.snd.ws ≠ w := by
  intro d
  induction d with
  | nil =>
    intro _ e he
    simp [removeFirstMatching] at he
  | cons p rest ih =>
    obtain ⟨k0, c0⟩ := p
    intro hone e he
    by_cases h : c0.ws = w
    · rw [removeFirstMatching, if_pos h] at he
      have hlen :
          (((k0, c0) :: rest).filter fun e => e.snd.ws == w).length =
            (rest.filter fun e => e.snd.ws == w).length + 1 := by
        simp [List.filter_cons, h]
      have hnone : (rest.filter fun e => e.snd.ws == w).length = 0 := by
        omega
      have hempty : (rest.filter fun e => e.snd.ws == w) = [] :=
        List.length_eq_zero.mp hnone
      intro hew
      have : e ∈ rest.filter fun e => e.snd.ws == w :=
        List.mem_filter.mpr ⟨he, by simp [hew]⟩
      simp [hempty] at this
    · rw [removeFirstMatching, if_neg h] at he
      rcases List.mem_cons.mp he with rfl | he2
      · exact h
      · have hone2 : (rest.filter fun e => e.snd.ws == w).length ≤ 1 := by
          have hlen :
              (((k0, c0) :: rest).filter fun e => e.snd.ws == w).length =
                (rest.filter fun e => e.snd.ws == w).length := by
            simp [List.filter_cons, h]
          omega
        exact ih hone2 e he2

/-- Closing a handle that matches no entry leaves the directory unchanged. -/
theorem removeFirstMatching_no_match (w : Nat) :
    ∀ d : Directory, (∀ e ∈ d, e.snd.ws ≠ w) → removeFirstMatching w d = d := by
  intro d
  induction d with
  | nil => intro _; rfl
  | cons p rest ih =>
    obtain ⟨k0, c0⟩ := p
    intro hno
    rw [removeFirstMatching,
      if_neg (hno (k0, c0) (List.mem_cons_self _ _)),
      ih fun e he => hno e (List.mem_cons_of_mem _ he)]

/-- C9 (amended): lookup reflects the most recent registration — after
`Register(k, v)` looking up `k` yields `v` and every other identifier is
unaffected — and close removes at most one entry, the first (in registration
order) whose connection handle matches; in particular, when the closed handle
occupies at most one directory entry (the normal case of one registration per
connection), close removes every matching entry and closing the same handle
again is a no-op. -/
theorem directory_register_close (d : Directory) (msgs : List ChatMessage)
    (k k' : String) (v : Client) (w : Nat) (hk : k' ≠ k)
    (hone : (d.filter fun e => e.snd.ws == w).length ≤ 1) :
    mapGet (mapSet d k v) k = some v ∧
    mapGet (mapSet d k v) k' = mapGet d k' ∧
    (∀ e ∈ (handleClose ⟨d, msgs⟩ w).clients, e.snd.ws ≠ w) ∧
    handleClose (handleClose ⟨d, msgs⟩ w) w = handleClose ⟨d, msgs⟩ w := by
  refine ⟨mapGet_mapSet_self d k v, mapGet_mapSet_other d k k' v hk, ?_, ?_⟩
  · intro e he
    exact removeFirstMatching_clears w d hone e he
  · have hno : ∀ e ∈ removeFirstMatching w d, e.snd.ws ≠ w :=
      removeFirstMatching_clears w d hone
    simp [handleClose, removeFirstMatching_no_match w _ hno]

/-- Witness for C9 (amended) on the sample directory: register `u2`, close
handle 1 (held only by `u1`). -/
theorem directory_register_close_witness :
    ("u1" ≠ "u2" ∧
      (sampleState.clients.filter fun e => e.snd.ws == 1).length ≤ 1) ∧
    (mapGet (mapSet sampleState.clients "u2" ⟨3, "u2", "user"⟩) "u2" =
        some ⟨3, "u2", "user"⟩ ∧
      mapGet (mapSet sampleState.clients "u2" ⟨3, "u2", "user"⟩) "u1" =
        mapGet sampleState.clients "u1" ∧
      (∀ e ∈ (handleClose ⟨sampleState.clients, []⟩ 1).clients,
        e.snd.ws ≠ 1) ∧
      handleClose (handleClose ⟨sampleState.clients, []⟩ 1) 1 =
        handleClose ⟨sampleState.clients, []⟩ 1) :=
  ⟨⟨by decide, by decide⟩,
   directory_register_close sampleState.clients [] "u2" "u1"
     ⟨3, "u2", "user"⟩ 1 (by decide) (by decide)⟩

/-- Counterexample to C9 as stated: connection 5 authenticates as `a` and
then as `b`, so two directory entries hold handle 5; the close handler
deletes only the first matching entry before its `break`, leaving the entry
for `b` — still carrying handle 5 — in the directory. -/
theorem close_leaves_matching_entry :
    (run (okVerify "user") ⟨[], []⟩ doubleAuth).clients =
      [("b", ⟨5, "b", "user"⟩)] ∧
    ∃ e ∈ (run (okVerify "user") ⟨[], []⟩ doubleAuth).clients,
      e.snd.ws = 5 := by
  decide

/-- Each inbound frame appends at most one message to the log, and an
appended message carries the frame's tick as its id. -/
theorem handleFrame_messages (verify : String → Option Decoded) (now : Nat)
    (st : ServerState) (ws : Nat) (f : InFrame) :
    (handleFrame verify now st ws f).state.messages = st.messages ∨
    ∃ m : ChatMessage, m.id = now ∧
      (handleFrame verify now st ws f).state.messages = st.messages ++ [m] := by
  cases f with
  | auth token userId =>
    cases hv : verify token with
    | none => exact Or.inl (by simp [handleFrame, hv])
    | some decoded => exact Or.inl (by simp [handleFrame, hv])
  | send userId? senderRole body targetUserId =>
    cases userId? with
    | none => exact Or.inl rfl
    | some userId =>
      cases hu : mapGet st.clients userId with
      | none => exact Or.inl (by simp [handleFrame, hu])
      | some sender =>
        exact Or.inr ⟨sentMessage now userId senderRole body targetUserId,
          rfl, by simp [handleFrame, hu]⟩
  | getHistory userId? targetUserId? =>
    cases userId? with
    | none => exact Or.inl rfl
    | some userId =>
      cases targetUserId? with
      | none => exact Or.inl rfl
      | some targetUserId => exact Or.inl rfl

/-- Distinct ticks keep the log ids distinct, relative to a starting log
whose ids are distinct and avoid the coming ticks. -/
theorem run_ids_nodup (verify : String → Option Decoded) :
    ∀ (events : List Event) (st : ServerState),
      (st.messages.map ChatMessage.id).Nodup →
      (∀ m ∈ st.messages, m.id ∉ events.filterMap eventTick) →
      (events.filterMap eventTick).Nodup →
      ((run verify st events).messages.map ChatMessage.id).Nodup := by
  intro events
  induction events with
  | nil =>
    intro st h1 _ _
    exact h1
  | cons ev rest ih =>
    intro st h1 h2 h3
    cases ev with
    | close ws =>
      have htick : (Event.close ws :: rest).filterMap eventTick =
          rest.filterMap eventTick := by
        simp [eventTick]
      rw [htick] at h2 h3
      exact ih (handleClose st ws) h1 h2 h3
    | frame ws now f =>
      have htick : (Event.frame ws now f :: rest).filterMap eventTick =
          now :: rest.filterMap eventTick := by
        simp [eventTick]
      rw [htick] at h2 h3
      have h3rest : (rest.filterMap eventTick).Nodup :=
        (List.nodup_cons.mp h3).2
      have hnow : now ∉ rest.filterMap eventTick :=
        (List.nodup_cons.mp h3).1
      have h2split : ∀ m ∈ st.messages,
          m.id ≠ now ∧ m.id ∉ rest.filterMap eventTick := by
        intro m hm
        have := h2 m hm
        simpa [not_or] using this
      rcases handleFrame_messages verify now st ws f with hsame | ⟨m, hid, happ⟩
      · refine ih _ ?_ ?_ h3rest
        · rw [hsame]
          exact h1
        · intro m hm
          rw [hsame] at hm
          exact (h2split m hm).2
      · refine ih _ ?_ ?_ h3rest
        · rw [happ, List.map_append]
          refine List.Nodup.append h1 (by simp) ?_
          intro x hx hx2
          simp at hx hx2
          obtain ⟨m2, hm2, hid2⟩ := hx
          subst hx2
          exact (h2split m2 hm2).1 (hid2.trans hid)
        · intro m2 hm2
          rw [happ] at hm2
          rcases List.mem_append.mp hm2 with hm2 | hm2
          · exact (h2split m2 hm2).2
          · have : m2 = m := by simpa using hm2
            subst this
            rw [hid]
            exact hnow

/-- C8 (amended): message ids are the `Date.now()` tick of the send, so
starting from the empty log, whenever the ticks of the processed frames are
pairwise distinct, the ids in the message log are pairwise distinct; two
sends inside the same millisecond, however, share an id. -/
theorem send_ids_nodup (verify : String → Option Decoded)
    (events : List Event) (h : (events.filterMap eventTick).Nodup) :
    ((run verify ⟨[], []⟩ events).messages.map ChatMessage.id).Nodup :=
  run_ids_nodup verify events ⟨[], []⟩ (by simp) (by simp) h

/-- Witness for C8 (amended): an auth and two sends at ticks 10, 11, 12. -/
theorem send_ids_nodup_witness :
    (chatScript.filterMap eventTick).Nodup ∧
    ((run (okVerify "user") ⟨[], []⟩ chatScript).messages.map
      ChatMessage.id).Nodup :=
  ⟨by decide, send_ids_nodup (okVerify "user") chatScript (by decide)⟩

/-- Counterexample to C8 as stated: the id is `Date.now().toString()`, so the
two successful sends of `collideScript`, both at tick 11, produce the log ids
`[11, 11]` — not pairwise distinct. -/
theorem send_ids_collide :
    ((run (okVerify "user") ⟨[], []⟩ collideScript).messages.map
      ChatMessage.id) = [11, 11] ∧
    ¬ ((run (okVerify "user") ⟨[], []⟩ collideScript).messages.map
      ChatMessage.id).Nodup := by
  decide

end GrantManager
